import Mathlib

/-!
Verification of the contact-form backend (`server.js` plus the SQL schema).

Strings are modelled as `List Char` (`Str`); JavaScript string operations
(`trim`, `toLowerCase`, truthiness, the email regular expression) are given
executable Lean counterparts.  The request handler `app.post('/api/contact')`
is embedded as a pure function parameterised by its collaborators: the
datastore insert outcome, the success flags of the two mail dispatches and
the configuration environment.
-/

namespace PortfolioServer

/-- JavaScript strings, modelled as lists of characters. -/
abbrev Str := List Char

/-- Literal helper: a Lean string literal as a `Str`. -/
def str (s : String) : Str := s.data

/-- The characters the JavaScript `\s` class (used by `trim` and the email
regular expression) matches, restricted to the common ones. -/
def isJsWhitespace (c : Char) : Bool :=
  c = ' ' || c = '\t' || c = '\n' || c = '\r' || c = '\x0b' || c = '\x0c' ||
  c = '\u00A0' || c = '\uFEFF'

/-- JavaScript `String.prototype.trim`: strip whitespace from both ends. -/
def trim (s : Str) : Str :=
  ((s.dropWhile isJsWhitespace).reverse.dropWhile isJsWhitespace).reverse

/-- JavaScript `String.prototype.toLowerCase`, character by character. -/
def toLowerStr (s : Str) : Str := s.map Char.toLower

/-- JavaScript truthiness of an optional string field: an absent field and
the empty string are falsy. `present s` models `!!s`. -/
def present (s : Option Str) : Bool :=
  match s with
  | none => false
  | some l => !l.isEmpty

/-- JavaScript `a || b` on two optional strings (`req.ip || req.connection.remoteAddress`):
the left operand is taken unless it is falsy (absent or empty). -/
def jsOr (a b : Option Str) : Option Str :=
  match a with
  | none => b
  | some l => if l.isEmpty then b else some l

/-- A character matched by `[^\s@]` in the email regular expression. -/
def emailChar (c : Char) : Bool := !isJsWhitespace c && c != '@'

/-- Executable model of `emailRegex.test(email)` for
`emailRegex = /^[^\s@]+@[^\s@]+\.[^\s@]+$/` (server.js line 81):
split the string at its first `'@'`; the part before must be a non-empty
run of `[^\s@]`, the part after must be a run of `[^\s@]` containing a
`'.'` that is neither its first nor its last character. -/
def emailRegexTest (s : Str) : Bool :=
  let l := s.takeWhile (fun c => c != '@')
  match s.dropWhile (fun c => c != '@') with
  | [] => false
  | _ :: r =>
    !l.isEmpty && l.all emailChar && r.all emailChar &&
      ((r.drop 1).dropLast.contains '.')

/-- An error response body: the short `error` code and the human `details`. -/
structure ErrBody where
  error : Str
  details : Str
deriving DecidableEq

/-- The `MissingField` rejection (server.js lines 74-77). -/
def missingFieldErr : ErrBody :=
  ⟨str "All fields are required",
   str "Please fill in all required fields: name, email, subject, and message."⟩

/-- The `InvalidEmailFormat` rejection (server.js lines 83-86). -/
def invalidEmailFormatErr : ErrBody :=
  ⟨str "Invalid email format", str "Please provide a valid email address."⟩

/-- The `InvalidLength` rejection for `name` (server.js lines 91-94). -/
def invalidNameLengthErr : ErrBody :=
  ⟨str "Invalid name length", str "Name must be between 2 and 100 characters."⟩

/-- The `InvalidLength` rejection for `subject` (server.js lines 98-101). -/
def invalidSubjectLengthErr : ErrBody :=
  ⟨str "Invalid subject length", str "Subject must be between 5 and 200 characters."⟩

/-- The `InvalidLength` rejection for `message` (server.js lines 105-108). -/
def invalidMessageLengthErr : ErrBody :=
  ⟨str "Invalid message length", str "Message must be between 10 and 2000 characters."⟩

/-- The validation middleware `validateContactForm` (server.js lines 69-112).
`none` models calling `next()`; `some e` models the 400 rejection `e`.
The four fields come from `req.body` and may be absent. -/
def validateContactForm (name email subject message : Option Str) : Option ErrBody :=
  if !(present name && present email && present subject && present message) then
    some missingFieldErr
  else
    let name' := name.getD []
    let email' := email.getD []
    let subject' := subject.getD []
    let message' := message.getD []
    if !emailRegexTest email' then
      some invalidEmailFormatErr
    else if name'.length < 2 || name'.length > 100 then
      some invalidNameLengthErr
    else if subject'.length < 5 || subject'.length > 200 then
      some invalidSubjectLengthErr
    else if message'.length < 10 || message'.length > 2000 then
      some invalidMessageLengthErr
    else
      none

/-- A row returned by the datastore insert; `id` is the generated identifier
(`gen_random_uuid()` in the schema), modelled opaquely as a number. -/
structure Row where
  id : Nat
deriving DecidableEq

/-- Outcome of the Supabase `insert(...).select()` call (server.js lines
154-167): either an error object carrying a message, or a `data` value that
normally is the list of inserted rows but may be absent. -/
inductive DbResult where
  | failure (message : Str)
  | success (data : Option (List Row))
deriving DecidableEq

/-- The data interpolated into the two static HTML templates (server.js
lines 188-206 and 214-242); the surrounding literal markup is fixed text. -/
inductive HtmlData where
  | adminBody (name email subject timeLocal : Str) (ip : Option Str) (message : Str)
  | userBody (name subject timeLocal : Str)
deriving DecidableEq

/-- A mail-relay payload `{from, to, subject, html}`; `fromAddr` models the
`from` field and `toAddr` the `to` field. -/
structure MailMsg where
  fromAddr : Str
  toAddr : Str
  subject : Str
  html : HtmlData
deriving DecidableEq

/-- The configuration read from the process environment: `NODE_ENV` (possibly
unset), `SMTP_FROM` and `ADMIN_EMAIL`. -/
structure Env where
  nodeEnv : Option Str
  smtpFrom : Str
  adminEmail : Str
deriving DecidableEq

/-- The parts of the request the handler reads: the four body fields (each
possibly absent), `req.ip` and `req.connection.remoteAddress`. -/
structure ContactRequest where
  name : Option Str
  email : Option Str
  subject : Option Str
  message : Option Str
  ip : Option Str
  remoteAddress : Option Str
deriving DecidableEq

/-- The domain entity persisted by the insert (the `contact_messages` row
minus the datastore-generated `id`/`updated_at`). -/
structure ContactMessage where
  name : Str
  email : Str
  subject : Str
  message : Str
  ip_address : Option Str
  created_at : Str
  status : Str
deriving DecidableEq

/-- The JSON body of a response from the contact endpoint. -/
inductive RespBody where
  | clientError (e : ErrBody)
  | dbError (error details : Str) (debug : Option Str)
  | ok (message : Str) (id : Nat) (timestamp : Str)
  | serverError (error details : Str)
deriving DecidableEq

/-- What one request produces: the HTTP status and body, the record passed
to the datastore insert (if the insert was reached), the two mail payloads
passed to the relay (if dispatch was reached), and whether the swallowed
email failure was logged. -/
structure HandlerOutput where
  status : Nat
  body : RespBody
  inserted : Option ContactMessage
  dispatched : Option (MailMsg × MailMsg)
  emailErrorLogged : Bool
deriving DecidableEq

/-- The handler body of `app.post('/api/contact')` (server.js lines 147-272),
run after validation has passed.  Collaborators are parameters: `locale`
models `ts => new Date(ts).toLocaleString()`, `db` the insert outcome as a
function of the inserted record, `adminSendOk`/`userSendOk` whether each
`transporter.sendMail` fulfils.  The awaited `Promise.all` rejection is
caught and only logged; the `data[0].id` access on an absent or empty
`data` throws and is answered by the handler-level catch. -/
def contactHandler (env : Env) (locale : Str → Str) (db : ContactMessage → DbResult)
    (adminSendOk userSendOk : Bool) (req : ContactRequest) (timestamp : Str) :
    HandlerOutput :=
  let name := req.name.getD []
  let email := req.email.getD []
  let subject := req.subject.getD []
  let message := req.message.getD []
  let clientIp := jsOr req.ip req.remoteAddress
  let record : ContactMessage :=
    { name := trim name
      email := trim (toLowerStr email)
      subject := trim subject
      message := trim message
      ip_address := clientIp
      created_at := timestamp
      status := str "new" }
  match db record with
  | .failure msg =>
      { status := 500
        body := .dbError (str "Database error")
          (str "Failed to store your message. Please try again or contact us directly.")
          (if env.nodeEnv = some (str "development") then some msg else none)
        inserted := some record
        dispatched := none
        emailErrorLogged := false }
  | .success data =>
      let adminMailOptions : MailMsg :=
        { fromAddr := env.smtpFrom
          toAddr := env.adminEmail
          subject := str "New Contact Form Submission: " ++ subject
          html := .adminBody name email subject (locale timestamp) clientIp message }
      let userMailOptions : MailMsg :=
        { fromAddr := env.smtpFrom
          toAddr := email
          subject := str "Thank you for contacting HafTech - " ++ subject
          html := .userBody name subject (locale timestamp) }
      let emailFailed := !(adminSendOk && userSendOk)
      match data with
      | some (row :: _) =>
          { status := 200
            body := .ok (str "Message sent successfully!") row.id timestamp
            inserted := some record
            dispatched := some (adminMailOptions, userMailOptions)
            emailErrorLogged := emailFailed }
      | _ =>
          { status := 500
            body := .serverError (str "Server error")
              (str "Something went wrong. Please try again later or contact us directly.")
            inserted := some record
            dispatched := some (adminMailOptions, userMailOptions)
            emailErrorLogged := emailFailed }

/-- The full `POST /api/contact` pipeline: the validation middleware, then
the handler. -/
def postContact (env : Env) (locale : Str → Str) (db : ContactMessage → DbResult)
    (adminSendOk userSendOk : Bool) (req : ContactRequest) (timestamp : Str) :
    HandlerOutput :=
  match validateContactForm req.name req.email req.subject req.message with
  | some e =>
      { status := 400, body := .clientError e, inserted := none
        dispatched := none, emailErrorLogged := false }
  | none => contactHandler env locale db adminSendOk userSendOk req timestamp

/-- The ContactMessage the specification says a valid submission persists:
name/subject/message trimmed, email trimmed and lower-cased, the request's
source IP, the receipt timestamp and status "new". -/
def normalizedRecord (req : ContactRequest) (timestamp : Str) : ContactMessage :=
  { name := trim (req.name.getD [])
    email := trim (toLowerStr (req.email.getD []))
    subject := trim (req.subject.getD [])
    message := trim (req.message.getD [])
    ip_address := jsOr req.ip req.remoteAddress
    created_at := timestamp
    status := str "new" }

/-- A task that settles at an abstract instant: `ok` tells whether it
fulfils, `time` when it settles. -/
structure TaskOutcome where
  time : Nat
  ok : Bool
deriving DecidableEq

/-- Model of the JavaScript `Promise.all` combinator over the two
`transporter.sendMail` dispatches (server.js lines 246-249): when both
dispatches fulfil it fulfils once the later one has settled; as soon as a
first rejection settles it rejects with that single failure, without
waiting for the other dispatch. -/
def promiseAll2 (a b : TaskOutcome) : TaskOutcome :=
  if a.ok && b.ok then ⟨max a.time b.time, true⟩
  else if a.ok then ⟨b.time, false⟩
  else if b.ok then ⟨a.time, false⟩
  else ⟨min a.time b.time, false⟩

/-- Presence of all four fields, as the spec states it: none of
name/email/subject/message absent or empty. -/
def presenceOk (name email subject message : Option Str) : Bool :=
  present name && present email && present subject && present message

/-- The email-format check viewed on its own. -/
def emailFormatOk (email : Option Str) : Bool :=
  emailRegexTest (email.getD [])

/-- The spec's name bound: length in [2,100], on the raw field. -/
def nameLengthOk (name : Option Str) : Bool :=
  2 ≤ (name.getD []).length && (name.getD []).length ≤ 100

/-- The spec's subject bound: length in [5,200], on the raw field. -/
def subjectLengthOk (subject : Option Str) : Bool :=
  5 ≤ (subject.getD []).length && (subject.getD []).length ≤ 200

/-- The spec's message bound: length in [10,2000], on the raw field. -/
def messageLengthOk (message : Option Str) : Bool :=
  10 ≤ (message.getD []).length && (message.getD []).length ≤ 2000

/-- The email shape the spec describes: a non-empty local part, a single
`'@'`, a non-empty domain, `'.'`, a non-empty top-level segment, and no
whitespace anywhere in the string. -/
def specEmailPattern (s : Str) : Prop :=
  (∃ l d t : Str, s = l ++ '@' :: (d ++ '.' :: t) ∧ l ≠ [] ∧ d ≠ [] ∧ t ≠ []) ∧
    (∀ c ∈ s, isJsWhitespace c = false) ∧ s.count '@' = 1

example : emailRegexTest (str "a@b.c") = true := by decide
example : emailRegexTest (str "a@b.c.d") = true := by decide
example : emailRegexTest (str "a@bc") = false := by decide
example : emailRegexTest (str "a@@b.c") = false := by decide
example : emailRegexTest (str "a b@c.d") = false := by decide
example : emailRegexTest (str "@b.c") = false := by decide
example : emailRegexTest (str "a@.c") = false := by decide
example : emailRegexTest (str "a@b.") = false := by decide
example :
    validateContactForm (some (str "Jo")) (some (str "jo@ex.com"))
      (some (str "Hello")) (some (str "Hi there now")) = none := by decide
example :
    validateContactForm (some (str "Jo")) none
      (some (str "Hello")) (some (str "Hi there now")) = some missingFieldErr := by decide

/-- A `not-between` condition on lengths, as the source writes it, equals
the negated inclusive-bounds check. -/
lemma length_cond_eq (a lo hi : Nat) :
    (decide (a < lo) || decide (hi < a)) = !(decide (lo ≤ a) && decide (a ≤ hi)) := by
  by_cases h1 : a < lo <;> by_cases h2 : hi < a <;> simp_all

/-- The validator, rephrased as the if-chain over the five independent
checks in their source order. -/
lemma validateContactForm_eq (name email subject message : Option Str) :
    validateContactForm name email subject message =
      (if !presenceOk name email subject message then some missingFieldErr
       else if !emailFormatOk email then some invalidEmailFormatErr
       else if !nameLengthOk name then some invalidNameLengthErr
       else if !subjectLengthOk subject then some invalidSubjectLengthErr
       else if !messageLengthOk message then some invalidMessageLengthErr
       else none) := by
  simp only [validateContactForm, presenceOk, emailFormatOk, nameLengthOk,
    subjectLengthOk, messageLengthOk, length_cond_eq]

lemma present_of_pos (l : Str) (h : 0 < l.length) : present (some l) = true := by
  cases l with
  | nil => simp at h
  | cons a as => rfl

lemma emailRegex_abc : emailRegexTest (str "a@b.c") = true := by decide

/-- On inputs that pass presence and email format, the validator reduces to
the three length checks in order. -/
lemma validate_result_of (name email subject message : Str)
    (hn : 0 < name.length) (he : 0 < email.length)
    (hs : 0 < subject.length) (hm : 0 < message.length)
    (hemail : emailRegexTest email = true) :
    validateContactForm (some name) (some email) (some subject) (some message) =
      (if !nameLengthOk (some name) then some invalidNameLengthErr
       else if !subjectLengthOk (some subject) then some invalidSubjectLengthErr
       else if !messageLengthOk (some message) then some invalidMessageLengthErr
       else none) := by
  rw [validateContactForm_eq]
  simp [presenceOk, emailFormatOk, present_of_pos _ hn, present_of_pos _ he,
    present_of_pos _ hs, present_of_pos _ hm, hemail]

lemma nameLengthOk_replicate (n : Nat) (c : Char) :
    nameLengthOk (some (List.replicate n c)) = (decide (2 ≤ n) && decide (n ≤ 100)) := by
  simp [nameLengthOk]

lemma subjectLengthOk_replicate (n : Nat) (c : Char) :
    subjectLengthOk (some (List.replicate n c)) = (decide (5 ≤ n) && decide (n ≤ 200)) := by
  simp [subjectLengthOk]

lemma messageLengthOk_replicate (n : Nat) (c : Char) :
    messageLengthOk (some (List.replicate n c)) = (decide (10 ≤ n) && decide (n ≤ 2000)) := by
  simp [messageLengthOk]

/-- C6: the length bounds are inclusive at both ends: with all other checks
passing, a name of length 1 is rejected and of lengths 2 and 100 accepted
and of length 101 rejected; subject is accepted exactly at the boundary
lengths 5 and 200 of [5,200] and rejected at 4 and 201; message is accepted
at 10 and 2000 of [10,2000] and rejected at 9 and 2001. -/
theorem validator_length_bounds_inclusive :
    (validateContactForm (some (List.replicate 1 'a')) (some (str "a@b.c"))
        (some (List.replicate 5 's')) (some (List.replicate 10 'm'))
      = some invalidNameLengthErr) ∧
    (validateContactForm (some (List.replicate 2 'a')) (some (str "a@b.c"))
        (some (List.replicate 5 's')) (some (List.replicate 10 'm')) = none) ∧
    (validateContactForm (some (List.replicate 100 'a')) (some (str "a@b.c"))
        (some (List.replicate 5 's')) (some (List.replicate 10 'm')) = none) ∧
    (validateContactForm (some (List.replicate 101 'a')) (some (str "a@b.c"))
        (some (List.replicate 5 's')) (some (List.replicate 10 'm'))
      = some invalidNameLengthErr) ∧
    (validateContactForm (some (List.replicate 2 'a')) (some (str "a@b.c"))
        (some (List.replicate 4 's')) (some (List.replicate 10 'm'))
      = some invalidSubjectLengthErr) ∧
    (validateContactForm (some (List.replicate 2 'a')) (some (str "a@b.c"))
        (some (List.replicate 200 's')) (some (List.replicate 10 'm')) = none) ∧
    (validateContactForm (some (List.replicate 2 'a')) (some (str "a@b.c"))
        (some (List.replicate 201 's')) (some (List.replicate 10 'm'))
      = some invalidSubjectLengthErr) ∧
    (validateContactForm (some (List.replicate 2 'a')) (some (str "a@b.c"))
        (some (List.replicate 5 's')) (some (List.replicate 9 'm'))
      = some invalidMessageLengthErr) ∧
    (validateContactForm (some (List.replicate 2 'a')) (some (str "a@b.c"))
        (some (List.replicate 5 's')) (some (List.replicate 2000 'm')) = none) ∧
    (validateContactForm (some (List.replicate 2 'a')) (some (str "a@b.c"))
        (some (List.replicate 5 's')) (some (List.replicate 2001 'm'))
      = some invalidMessageLengthErr) := by
  refine ⟨?_, ?_, ?_, ?_, ?_, ?_, ?_, ?_, ?_, ?_⟩ <;>
  · rw [validate_result_of _ _ _ _ (by rw [List.length_replicate]; norm_num) (by decide)
        (by rw [List.length_replicate]; norm_num) (by rw [List.length_replicate]; norm_num)
        emailRegex_abc,
      nameLengthOk_replicate, subjectLengthOk_replicate, messageLengthOk_replicate]
    decide

/-- C4: the validator performs its checks in the fixed order presence of
all four fields, then email format, then name length, then subject length,
then message length, and the rejection returned is exactly the first
violation in that order: `MissingField` ("All fields are required"),
`InvalidEmailFormat` ("Invalid email format"), or the `InvalidLength`
rejection of the offending field. -/
theorem validator_first_violation_order (name email subject message : Option Str) :
    (validateContactForm name email subject message = some missingFieldErr ↔
      presenceOk name email subject message = false) ∧
    (validateContactForm name email subject message = some invalidEmailFormatErr ↔
      presenceOk name email subject message = true ∧ emailFormatOk email = false) ∧
    (validateContactForm name email subject message = some invalidNameLengthErr ↔
      presenceOk name email subject message = true ∧ emailFormatOk email = true ∧
        nameLengthOk name = false) ∧
    (validateContactForm name email subject message = some invalidSubjectLengthErr ↔
      presenceOk name email subject message = true ∧ emailFormatOk email = true ∧
        nameLengthOk name = true ∧ subjectLengthOk subject = false) ∧
    (validateContactForm name email subject message = some invalidMessageLengthErr ↔
      presenceOk name email subject message = true ∧ emailFormatOk email = true ∧
        nameLengthOk name = true ∧ subjectLengthOk subject = true ∧
        messageLengthOk message = false) ∧
    (validateContactForm name email subject message = none ↔
      presenceOk name email subject message = true ∧ emailFormatOk email = true ∧
        nameLengthOk name = true ∧ subjectLengthOk subject = true ∧
        messageLengthOk message = true) := by
  simp only [validateContactForm_eq]
  cases hp : presenceOk name email subject message <;>
    cases he : emailFormatOk email <;>
      cases h1 : nameLengthOk name <;>
        cases h2 : subjectLengthOk subject <;>
          cases h3 : messageLengthOk message <;>
            simp_all <;> decide

/-- C9: the validator measures the raw, untrimmed fields while the handler
trims before persisting, so the submission with name `" a"` (length 2),
subject `" abcd"` (length 5) and message `" abcdefghi"` (length 10) is
accepted, yet the persisted record's trimmed name, subject and message
have lengths 1, 4 and 9 — each below the documented minimum. -/
theorem raw_length_checked_trimmed_stored :
    validateContactForm (some (str " a")) (some (str "a@b.c"))
      (some (str " abcd")) (some (str " abcdefghi")) = none ∧
    (let out := postContact ⟨none, str "from@h.t", str "admin@h.t"⟩ (fun s => s)
        (fun _ => DbResult.success (some [⟨1⟩])) true true
        ⟨some (str " a"), some (str "a@b.c"), some (str " abcd"),
         some (str " abcdefghi"), some (str "9.9.9.9"), none⟩ (str "T");
      out.status = 200 ∧
      out.inserted.map (fun r => (r.name.length, r.subject.length, r.message.length))
        = some (1, 4, 9)) ∧
    1 < 2 ∧ 4 < 5 ∧ 9 < 10 := by
  decide

/-- The `debug` field of a response body, when it carries one. -/
def debugOf : RespBody → Option Str
  | .dbError _ _ d => d
  | _ => none

/-- Configuration fixture: `NODE_ENV=development`. -/
def devEnv : Env := ⟨some (str "development"), str "from@haftech.com", str "admin@haftech.com"⟩

/-- Configuration fixture: `NODE_ENV=test`, a non-production mode. -/
def testEnv : Env := ⟨some (str "test"), str "from@haftech.com", str "admin@haftech.com"⟩

/-- A valid request fixture. -/
def validReq : ContactRequest :=
  ⟨some (str "Jo"), some (str "Jo@Ex.COM"), some (str "Hello"),
   some (str "Hi there now"), some (str "1.2.3.4"), none⟩

/-- A receipt-timestamp fixture. -/
def ts0 : Str := str "2025-01-01T00:00:00.000Z"

/-- An insert collaborator that succeeds, returning one row with id 7. -/
def dbOk : ContactMessage → DbResult := fun _ => DbResult.success (some [⟨7⟩])

/-- An insert collaborator that fails with a raw error message. -/
def dbFail : ContactMessage → DbResult := fun _ => DbResult.failure (str "duplicate key")

/-- An insert collaborator that reports success with an empty row list. -/
def dbEmpty : ContactMessage → DbResult := fun _ => DbResult.success (some [])

/-- C1: on a valid submission whose insert succeeds, the handler hands the
datastore exactly the normalized record — name, subject and message
trimmed, email trimmed and lower-cased, the request's source IP, status
"new" and the receipt timestamp as `created_at` — and the 200 response
carries the generated id of the returned row and that same timestamp. -/
theorem contact_success_persists_normalized (env : Env) (locale : Str → Str)
    (db : ContactMessage → DbResult) (adminSendOk userSendOk : Bool)
    (req : ContactRequest) (timestamp : Str) (row : Row) (rest : List Row)
    (hv : validateContactForm req.name req.email req.subject req.message = none)
    (hdb : db (normalizedRecord req timestamp) = DbResult.success (some (row :: rest))) :
    (postContact env locale db adminSendOk userSendOk req timestamp).inserted
        = some (normalizedRecord req timestamp) ∧
      (postContact env locale db adminSendOk userSendOk req timestamp).status = 200 ∧
      (postContact env locale db adminSendOk userSendOk req timestamp).body
        = RespBody.ok (str "Message sent successfully!") row.id timestamp := by
  simp only [normalizedRecord] at hdb
  simp only [postContact, hv, contactHandler, hdb, normalizedRecord]
  exact ⟨trivial, trivial, trivial⟩

theorem contact_success_persists_normalized_witness :
    (validateContactForm validReq.name validReq.email validReq.subject validReq.message
        = none ∧
      dbOk (normalizedRecord validReq ts0) = DbResult.success (some [⟨7⟩])) ∧
    ((postContact devEnv (fun s => s) dbOk true true validReq ts0).inserted
        = some (normalizedRecord validReq ts0) ∧
      (postContact devEnv (fun s => s) dbOk true true validReq ts0).status = 200 ∧
      (postContact devEnv (fun s => s) dbOk true true validReq ts0).body
        = RespBody.ok (str "Message sent successfully!") 7 ts0) :=
  ⟨⟨by decide, by decide⟩,
   contact_success_persists_normalized devEnv (fun s => s) dbOk true true validReq ts0
     ⟨7⟩ [] (by decide) (by decide)⟩

/-- C2: on a valid submission whose insert reports an error, the response is
500 with the `DatabaseError` code ("Database error"), and the mail relay is
never invoked — no email payload is built. -/
theorem dbError_no_email (env : Env) (locale : Str → Str)
    (db : ContactMessage → DbResult) (adminSendOk userSendOk : Bool)
    (req : ContactRequest) (timestamp : Str) (msg : Str)
    (hv : validateContactForm req.name req.email req.subject req.message = none)
    (hdb : db (normalizedRecord req timestamp) = DbResult.failure msg) :
    (postContact env locale db adminSendOk userSendOk req timestamp).status = 500 ∧
      (postContact env locale db adminSendOk userSendOk req timestamp).body
        = RespBody.dbError (str "Database error")
            (str "Failed to store your message. Please try again or contact us directly.")
            (if env.nodeEnv = some (str "development") then some msg else none) ∧
      (postContact env locale db adminSendOk userSendOk req timestamp).dispatched = none := by
  simp only [normalizedRecord] at hdb
  simp only [postContact, hv, contactHandler, hdb, normalizedRecord]
  exact ⟨trivial, trivial, trivial⟩

theorem dbError_no_email_witness :
    (validateContactForm validReq.name validReq.email validReq.subject validReq.message
        = none ∧
      dbFail (normalizedRecord validReq ts0) = DbResult.failure (str "duplicate key")) ∧
    ((postContact devEnv (fun s => s) dbFail true true validReq ts0).status = 500 ∧
      (postContact devEnv (fun s => s) dbFail true true validReq ts0).body
        = RespBody.dbError (str "Database error")
            (str "Failed to store your message. Please try again or contact us directly.")
            (if devEnv.nodeEnv = some (str "development")
              then some (str "duplicate key") else none) ∧
      (postContact devEnv (fun s => s) dbFail true true validReq ts0).dispatched = none) :=
  ⟨⟨by decide, by decide⟩,
   dbError_no_email devEnv (fun s => s) dbFail true true validReq ts0
     (str "duplicate key") (by decide) (by decide)⟩

/-- C3: on a valid submission whose insert succeeds, the response is 200
success whatever the two mail dispatches do; even when both fail the
failure is only logged, the response is unchanged, and the stored record is
not rolled back. -/
theorem email_failure_swallowed (env : Env) (locale : Str → Str)
    (db : ContactMessage → DbResult) (req : ContactRequest) (timestamp : Str)
    (row : Row) (rest : List Row)
    (hv : validateContactForm req.name req.email req.subject req.message = none)
    (hdb : db (normalizedRecord req timestamp) = DbResult.success (some (row :: rest))) :
    ∀ adminSendOk userSendOk : Bool,
      (postContact env locale db adminSendOk userSendOk req timestamp).status = 200 ∧
      (postContact env locale db adminSendOk userSendOk req timestamp).body
        = RespBody.ok (str "Message sent successfully!") row.id timestamp ∧
      (postContact env locale db adminSendOk userSendOk req timestamp).inserted
        = some (normalizedRecord req timestamp) ∧
      (adminSendOk = false → userSendOk = false →
        (postContact env locale db adminSendOk userSendOk req timestamp).emailErrorLogged
          = true) := by
  intro adminSendOk userSendOk
  simp only [normalizedRecord] at hdb
  simp only [postContact, hv, contactHandler, hdb, normalizedRecord]
  refine ⟨trivial, trivial, trivial, ?_⟩
  rintro rfl rfl
  rfl

theorem email_failure_swallowed_witness :
    (validateContactForm validReq.name validReq.email validReq.subject validReq.message
        = none ∧
      dbOk (normalizedRecord validReq ts0) = DbResult.success (some [⟨7⟩])) ∧
    ((postContact devEnv (fun s => s) dbOk false false validReq ts0).status = 200 ∧
      (postContact devEnv (fun s => s) dbOk false false validReq ts0).body
        = RespBody.ok (str "Message sent successfully!") 7 ts0 ∧
      (postContact devEnv (fun s => s) dbOk false false validReq ts0).inserted
        = some (normalizedRecord validReq ts0) ∧
      (false = false → false = false →
        (postContact devEnv (fun s => s) dbOk false false validReq ts0).emailErrorLogged
          = true)) :=
  ⟨⟨by decide, by decide⟩,
   email_failure_swallowed devEnv (fun s => s) dbOk validReq ts0 ⟨7⟩ []
     (by decide) (by decide) false false⟩

/-- C10: the success branch reads `data[0].id`; under the collaborator
contract (a successful insert returns a non-empty row list) that access
yields the generated id in a 200 response, while an insert that reports
success with an absent or empty row list makes the handler throw and the
catch-all answer 500 `ServerError`, even though the insert was reported
successful and the dispatches were already issued. -/
theorem success_row_access (env : Env) (locale : Str → Str)
    (db : ContactMessage → DbResult) (adminSendOk userSendOk : Bool)
    (req : ContactRequest) (timestamp : Str)
    (hv : validateContactForm req.name req.email req.subject req.message = none) :
    (∀ row rest, db (normalizedRecord req timestamp)
        = DbResult.success (some (row :: rest)) →
      (postContact env locale db adminSendOk userSendOk req timestamp).status = 200 ∧
        (postContact env locale db adminSendOk userSendOk req timestamp).body
          = RespBody.ok (str "Message sent successfully!") row.id timestamp) ∧
    ((db (normalizedRecord req timestamp) = DbResult.success none ∨
        db (normalizedRecord req timestamp) = DbResult.success (some [])) →
      (postContact env locale db adminSendOk userSendOk req timestamp).status = 500 ∧
        (postContact env locale db adminSendOk userSendOk req timestamp).body
          = RespBody.serverError (str "Server error")
              (str "Something went wrong. Please try again later or contact us directly.") ∧
        (postContact env locale db adminSendOk userSendOk req timestamp).inserted
          = some (normalizedRecord req timestamp) ∧
        (postContact env locale db adminSendOk userSendOk req timestamp).dispatched
          ≠ none) := by
  constructor
  · intro row rest hdb
    simp only [normalizedRecord] at hdb
    simp only [postContact, hv, contactHandler, hdb, normalizedRecord]
    exact ⟨trivial, trivial⟩
  · intro hdb
    cases hdb with
    | inl h =>
      simp only [normalizedRecord] at h
      simp only [postContact, hv, contactHandler, h, normalizedRecord]
      exact ⟨trivial, trivial, trivial, by simp⟩
    | inr h =>
      simp only [normalizedRecord] at h
      simp only [postContact, hv, contactHandler, h, normalizedRecord]
      exact ⟨trivial, trivial, trivial, by simp⟩

theorem success_row_access_witness :
    validateContactForm validReq.name validReq.email validReq.subject validReq.message
      = none ∧
    dbEmpty (normalizedRecord validReq ts0) = DbResult.success (some []) ∧
    ((postContact devEnv (fun s => s) dbEmpty true true validReq ts0).status = 500 ∧
      (postContact devEnv (fun s => s) dbEmpty true true validReq ts0).body
        = RespBody.serverError (str "Server error")
            (str "Something went wrong. Please try again later or contact us directly.") ∧
      (postContact devEnv (fun s => s) dbEmpty true true validReq ts0).inserted
        = some (normalizedRecord validReq ts0) ∧
      (postContact devEnv (fun s => s) dbEmpty true true validReq ts0).dispatched
        ≠ none) :=
  ⟨by decide, by decide,
   (success_row_access devEnv (fun s => s) dbEmpty true true validReq ts0
       (by decide)).2 (Or.inr (by decide))⟩

/-- C7 counterexample: with `NODE_ENV=test` — a non-production mode — a
failing insert does not put the raw error message into the response, so
"debug appears iff non-production" is false: the right side holds and the
left side fails at this concrete input. -/
theorem debug_iff_nonproduction_false :
    ¬ ((debugOf (postContact testEnv (fun s => s) dbFail true true validReq ts0).body
          = some (str "duplicate key")) ↔
        testEnv.nodeEnv ≠ some (str "production")) := by
  decide

/-- C7 amended: on a persistence failure the raw error message appears as
the `debug` field exactly when `NODE_ENV` is the development mode (one
particular non-production mode); in production — indeed in every mode other
than development — no internal detail is leaked. -/
theorem debug_iff_development (env : Env) (locale : Str → Str)
    (db : ContactMessage → DbResult) (adminSendOk userSendOk : Bool)
    (req : ContactRequest) (timestamp : Str) (msg : Str)
    (hv : validateContactForm req.name req.email req.subject req.message = none)
    (hdb : db (normalizedRecord req timestamp) = DbResult.failure msg) :
    ((debugOf (postContact env locale db adminSendOk userSendOk req timestamp).body
        = some msg) ↔ env.nodeEnv = some (str "development")) ∧
    (env.nodeEnv ≠ some (str "development") →
      debugOf (postContact env locale db adminSendOk userSendOk req timestamp).body
        = none) := by
  simp only [normalizedRecord] at hdb
  simp only [postContact, hv, contactHandler, hdb, normalizedRecord, debugOf]
  by_cases h : env.nodeEnv = some (str "development") <;> simp [h]

theorem debug_iff_development_witness :
    (validateContactForm validReq.name validReq.email validReq.subject validReq.message
        = none ∧
      dbFail (normalizedRecord validReq ts0) = DbResult.failure (str "duplicate key")) ∧
    (((debugOf (postContact devEnv (fun s => s) dbFail true true validReq ts0).body
        = some (str "duplicate key")) ↔ devEnv.nodeEnv = some (str "development")) ∧
      (devEnv.nodeEnv ≠ some (str "development") →
        debugOf (postContact devEnv (fun s => s) dbFail true true validReq ts0).body
          = none)) :=
  ⟨⟨by decide, by decide⟩,
   debug_iff_development devEnv (fun s => s) dbFail true true validReq ts0
     (str "duplicate key") (by decide) (by decide)⟩

/-- C8 counterexample: `Promise.all` does not wait for both dispatches to
settle before returning control: with the first dispatch rejecting at
instant 3 and the second fulfilling at instant 7, the join settles at 3,
before the second dispatch has settled. -/
theorem promiseAll_early_return :
    (promiseAll2 ⟨3, false⟩ ⟨7, true⟩).time
      < (max (⟨3, false⟩ : TaskOutcome).time (⟨7, true⟩ : TaskOutcome).time) ∧
    ¬ ((promiseAll2 ⟨3, false⟩ ⟨7, true⟩).time
        ≥ max (⟨3, false⟩ : TaskOutcome).time (⟨7, true⟩ : TaskOutcome).time) := by
  decide

/-- C8 amended: the two dispatches are issued concurrently with independent
outcomes; when both fulfil, the join waits for both to settle (it settles
at the later instant and fulfils); when at least one rejects, the join
rejects — a single aggregate failure — at the instant of the first
rejection, which may be before the other dispatch settles. -/
theorem promiseAll_join (a b : TaskOutcome) :
    (a.ok = true → b.ok = true →
      (promiseAll2 a b).ok = true ∧ (promiseAll2 a b).time = max a.time b.time ∧
        a.time ≤ (promiseAll2 a b).time ∧ b.time ≤ (promiseAll2 a b).time) ∧
    ((a.ok = false ∨ b.ok = false) → (promiseAll2 a b).ok = false) ∧
    (a.ok = false → b.ok = true → (promiseAll2 a b).time = a.time) ∧
    (a.ok = true → b.ok = false → (promiseAll2 a b).time = b.time) ∧
    (a.ok = false → b.ok = false →
      (promiseAll2 a b).time = min a.time b.time) := by
  obtain ⟨ta, oa⟩ := a
  obtain ⟨tb, ob⟩ := b
  cases oa <;> cases ob <;>
    simp [promiseAll2, Nat.le_max_left, Nat.le_max_right]

theorem promiseAll_join_witness :
    ((⟨3, false⟩ : TaskOutcome).ok = false ∨ (⟨7, true⟩ : TaskOutcome).ok = false) ∧
    ((promiseAll2 ⟨3, false⟩ ⟨7, true⟩).ok = false ∧
      (promiseAll2 ⟨3, false⟩ ⟨7, true⟩).time = (⟨3, false⟩ : TaskOutcome).time) :=
  ⟨Or.inl (by decide),
   (promiseAll_join ⟨3, false⟩ ⟨7, true⟩).2.1 (Or.inl (by decide)),
   (promiseAll_join ⟨3, false⟩ ⟨7, true⟩).2.2.1 (by decide) (by decide)⟩

lemma dropWhile_head_not (p : Char → Bool) :
    ∀ (s : Str) (x : Char) (r : Str), s.dropWhile p = x :: r → p x = false := by
  intro s
  induction s with
  | nil => intro x r h; simp at h
  | cons a as ih =>
    intro x r h
    cases hp : p a
    · rw [List.dropWhile_cons] at h
      simp [hp] at h
      rcases h with ⟨h1, -⟩
      rw [← h1]; exact hp
    · rw [List.dropWhile_cons] at h
      simp only [hp, if_true] at h
      exact ih x r h

lemma takeWhile_dropWhile_split (p : Char → Bool) :
    ∀ (l : Str) (x : Char) (r : Str), (∀ c ∈ l, p c = true) → p x = false →
      (l ++ x :: r).takeWhile p = l ∧ (l ++ x :: r).dropWhile p = x :: r := by
  intro l
  induction l with
  | nil =>
    intro x r _ hx
    simp [List.takeWhile_cons, List.dropWhile_cons, hx]
  | cons a as ih =>
    intro x r hall hx
    have ha : p a = true := hall a (by simp)
    have h2 := ih x r (fun c hc => hall c (by simp [hc])) hx
    simp [List.takeWhile_cons, List.dropWhile_cons, ha, h2.1, h2.2]

/-- The `'.'`-position condition of the regular expression on the part after
the `'@'` is exactly a decomposition into non-empty domain, `'.'` and
non-empty top-level segment. -/
lemma dot_decomp (r : Str) :
    (r.drop 1).dropLast.contains '.' = true ↔
      ∃ d t : Str, r = d ++ '.' :: t ∧ d ≠ [] ∧ t ≠ [] := by
  constructor
  · intro h
    cases r with
    | nil => simp at h
    | cons a rs =>
      simp only [List.drop_succ_cons, List.drop_zero] at h
      have hmem : '.' ∈ rs.dropLast := by simpa using h
      obtain ⟨u, v, huv⟩ := List.append_of_mem hmem
      have hrs_ne : rs ≠ [] := by
        intro hnil
        rw [hnil] at hmem
        simp at hmem
      have hrs := List.dropLast_append_getLast hrs_ne
      refine ⟨a :: u, v ++ [rs.getLast hrs_ne], ?_, by simp, by simp⟩
      conv_lhs => rw [← hrs]
      rw [huv]
      simp
  · rintro ⟨d, t, rfl, hd, ht⟩
    cases d with
    | nil => exact absurd rfl hd
    | cons a d' =>
      obtain ⟨t', c, rfl⟩ := (List.eq_nil_or_concat t).resolve_left ht
      simp only [List.concat_eq_append, List.cons_append, List.drop_succ_cons,
        List.drop_zero]
      have hassoc : d' ++ '.' :: (t' ++ [c]) = (d' ++ '.' :: t') ++ [c] := by simp
      rw [hassoc, List.dropLast_concat]
      simp

/-- The executable regular-expression test agrees with the email shape the
spec describes. -/
lemma emailRegexTest_iff (s : Str) : emailRegexTest s = true ↔ specEmailPattern s := by
  constructor
  · intro h
    rcases hd : s.dropWhile (fun c => c != '@') with _ | ⟨x, r⟩
    · rw [emailRegexTest.eq_def, hd] at h
      simp at h
    · rw [emailRegexTest.eq_def, hd] at h
      simp only [Bool.and_eq_true, Bool.not_eq_true', List.all_eq_true] at h
      obtain ⟨⟨⟨hne, hl⟩, hr⟩, hdot⟩ := h
      have hx : x = '@' := by
        have := dropWhile_head_not (fun c => c != '@') s x r hd
        simpa using this
      subst hx
      have hsplit : s = s.takeWhile (fun c => c != '@') ++ '@' :: r := by
        conv_lhs => rw [← List.takeWhile_append_dropWhile
          (p := fun c => c != '@') (l := s)]
        rw [hd]
      obtain ⟨d, t, hdt, hd', ht⟩ := (dot_decomp r).mp hdot
      constructor
      · refine ⟨s.takeWhile (fun c => c != '@'), d, t, ?_,
          by simpa using hne, hd', ht⟩
        conv_lhs => rw [hsplit]
        rw [hdt]
      constructor
      · intro c hc
        rw [hsplit] at hc
        rcases List.mem_append.mp hc with hcl | hcr
        · have := hl c hcl
          simp [emailChar] at this
          exact this.1
        · rcases List.mem_cons.mp hcr with rfl | hcr'
          · decide
          · have := hr c hcr'
            simp [emailChar] at this
            exact this.1
      · rw [hsplit, List.count_append, List.count_cons_self]
        have hl0 : List.count '@' (s.takeWhile (fun c => c != '@')) = 0 := by
          rw [List.count_eq_zero]
          intro hmem
          have := hl '@' hmem
          simp [emailChar] at this
        have hr0 : List.count '@' r = 0 := by
          rw [List.count_eq_zero]
          intro hmem
          have := hr '@' hmem
          simp [emailChar] at this
        omega
  · rintro ⟨⟨l, d, t, rfl, hl, hd', ht⟩, hws, hcount⟩
    have hcl : List.count '@' l = 0 ∧ List.count '@' (d ++ '.' :: t) = 0 := by
      rw [List.count_append, List.count_cons_self] at hcount
      omega
    have hlmem : '@' ∉ l := List.count_eq_zero.mp hcl.1
    have hrmem : '@' ∉ d ++ '.' :: t := List.count_eq_zero.mp hcl.2
    have hsplit := takeWhile_dropWhile_split (fun c => c != '@') l '@' (d ++ '.' :: t)
      (fun c hc => by
        simp only [bne_iff_ne, ne_eq, decide_eq_true_eq]
        intro hceq
        exact hlmem (hceq ▸ hc))
      (by simp)
    rw [emailRegexTest.eq_def, hsplit.2]
    simp only [hsplit.1, Bool.and_eq_true, Bool.not_eq_true', List.all_eq_true]
    refine ⟨⟨⟨?_, ?_⟩, ?_⟩, ?_⟩
    · cases l with
      | nil => exact absurd rfl hl
      | cons a as => rfl
    · intro c hc
      simp only [emailChar, Bool.and_eq_true, Bool.not_eq_true', bne_iff_ne, ne_eq,
        decide_eq_true_eq]
      refine ⟨hws c (List.mem_append_left _ hc), ?_⟩
      intro hceq
      exact hlmem (hceq ▸ hc)
    · intro c hc
      simp only [emailChar, Bool.and_eq_true, Bool.not_eq_true', bne_iff_ne, ne_eq,
        decide_eq_true_eq]
      refine ⟨hws c (List.mem_append_right _ (List.mem_cons_of_mem _ hc)), ?_⟩
      intro hceq
      exact hrmem (hceq ▸ hc)
    · exact (dot_decomp _).mpr ⟨d, t, rfl, hd', ht⟩

lemma length_chain_ne_email (x y z : Bool) :
    (if !x then some invalidNameLengthErr
     else if !y then some invalidSubjectLengthErr
     else if !z then some invalidMessageLengthErr
     else none) ≠ some invalidEmailFormatErr := by
  cases x <;> cases y <;> cases z <;> decide

/-- C5: for a submission passing the presence check, the validator rejects
with `InvalidEmailFormat` exactly when the email does not have the spec's
shape — local part, single `'@'`, domain, `'.'`, top-level segment, no
whitespace anywhere — and every email of that shape passes the
email-format check. -/
theorem email_format_rejection (name email subject message : Str)
    (hn : 0 < name.length) (he : 0 < email.length)
    (hs : 0 < subject.length) (hm : 0 < message.length) :
    (validateContactForm (some name) (some email) (some subject) (some message)
        = some invalidEmailFormatErr ↔ ¬ specEmailPattern email) ∧
    (specEmailPattern email →
      validateContactForm (some name) (some email) (some subject) (some message)
        ≠ some invalidEmailFormatErr) := by
  have hiff := emailRegexTest_iff email
  cases hemail : emailRegexTest email with
  | false =>
    have hnspec : ¬ specEmailPattern email := fun hspec => by
      rw [hiff.mpr hspec] at hemail
      exact absurd hemail (by decide)
    have hval : validateContactForm (some name) (some email) (some subject)
        (some message) = some invalidEmailFormatErr := by
      rw [validateContactForm_eq]
      simp [presenceOk, emailFormatOk, present_of_pos _ hn, present_of_pos _ he,
        present_of_pos _ hs, present_of_pos _ hm, hemail]
    rw [hval]
    exact ⟨⟨fun _ => hnspec, fun _ => rfl⟩, fun hspec => absurd hspec hnspec⟩
  | true =>
    have hspec : specEmailPattern email := hiff.mp hemail
    have hval := validate_result_of name email subject message hn he hs hm hemail
    have hne := length_chain_ne_email (nameLengthOk (some name))
      (subjectLengthOk (some subject)) (messageLengthOk (some message))
    rw [hval]
    exact ⟨⟨fun hEq => absurd hEq hne, fun hns => absurd hspec hns⟩, fun _ => hne⟩

theorem email_format_rejection_witness :
    (0 < (str "Jo").length ∧ 0 < (str "a b@c.d").length ∧
      0 < (str "Hello").length ∧ 0 < (str "Hi there now").length) ∧
    ((validateContactForm (some (str "Jo")) (some (str "a b@c.d"))
          (some (str "Hello")) (some (str "Hi there now"))
        = some invalidEmailFormatErr ↔ ¬ specEmailPattern (str "a b@c.d")) ∧
      (specEmailPattern (str "a b@c.d") →
        validateContactForm (some (str "Jo")) (some (str "a b@c.d"))
            (some (str "Hello")) (some (str "Hi there now"))
          ≠ some invalidEmailFormatErr)) :=
  ⟨⟨by decide, by decide, by decide, by decide⟩,
   email_format_rejection (str "Jo") (str "a b@c.d") (str "Hello")
     (str "Hi there now") (by decide) (by decide) (by decide) (by decide)⟩

end PortfolioServer
